import Mathlib

/-!
Verification of the python-tidegates core against its source.

The embedding follows `src/tidegates/utils.py`, `src/tidegates/analysis.py`
and `src/tidegates/toolbox.py`.  2-D numpy arrays are modelled as total
index functions `ℕ → ℕ → α` (elementwise numpy operations are pointwise);
IEEE floats of the elevation grid are modelled as `FVal` (a rational or
NaN, with IEEE comparison semantics: every comparison with NaN is false);
attribute tables are modelled as a schema (the arcpy `ListFields` result)
plus rows resolving field tokens to values.
-/

namespace Tidegates

/-- A cell of the elevation grid: an IEEE float that is either a finite
value (modelled as a rational) or NaN. -/
inductive FVal
  | nan : FVal
  | val : ℚ → FVal
deriving DecidableEq

/-- numpy elementwise `array > scalar`: a NaN cell compares false
(IEEE semantics), a finite cell compares its value. -/
def FVal.gtScalar : FVal → ℚ → Bool
  | FVal.nan, _ => false
  | FVal.val v, t => decide (t < v)

/-- The mask produced by `numpy.ma.masked_invalid`: true at NaN cells. -/
def FVal.isInvalid : FVal → Bool
  | FVal.nan => true
  | FVal.val _ => false

/-- A 2-D numpy array of a fixed common shape, modelled as a total function
from cell indices to values. -/
def Grid (α : Type) : Type := ℕ → ℕ → α

/-- Elementwise `zones_array <= 0` (utils.py line 783). -/
def nonzoneMask (zones_array : Grid ℤ) : Grid Bool :=
  fun i j => decide (zones_array i j ≤ 0)

/-- Elementwise `numpy.ma.masked_invalid(topo_array).mask` (utils.py line 785). -/
def invalidMask (topo_array : Grid FVal) : Grid Bool :=
  fun i j => (topo_array i j).isInvalid

/-- Masked assignment `arr[mask] = x` on an elevation grid. -/
def maskedAssignF (g : Grid FVal) (mask : Grid Bool) (x : FVal) : Grid FVal :=
  fun i j => if mask i j then x else g i j

/-- Masked assignment `arr[mask] = x` on an integer grid. -/
def maskedAssignZ (g : Grid ℤ) (mask : Grid Bool) (x : ℤ) : Grid ℤ :=
  fun i j => if mask i j then x else g i j

/-- Elementwise `topo_array > elevation` (utils.py line 789). -/
def unfloodedMask (topo_array : Grid FVal) (elevation : ℚ) : Grid Bool :=
  fun i j => (topo_array i j).gtScalar elevation

/-- Elementwise `mask1 | mask2`. -/
def orMask (a b : Grid Bool) : Grid Bool := fun i j => a i j || b i j

/-- utils.flood_zones (utils.py lines 763-796).  Mirrors the source step by
step: build the non-zone mask, rewrite invalid (NaN) cells of `topo_array`
to -999 in place, build the unflooded mask from the rewritten topo grid,
and zero the union of both masks on a copy of `zones_array`.  Returns the
flooded array together with the (mutated) topo array. -/
def flood_zones (zones_array : Grid ℤ) (topo_array : Grid FVal) (elevation : ℚ) :
    Grid ℤ × Grid FVal :=
  let nonzone_mask := nonzoneMask zones_array
  let invalid_mask := invalidMask topo_array
  let topo_rewritten := maskedAssignF topo_array invalid_mask (FVal.val (-999))
  let unflooded_mask := unfloodedMask topo_rewritten elevation
  let final_mask := orMask nonzone_mask unflooded_mask
  let flooded_array := maskedAssignZ zones_array final_mask 0
  (flooded_array, topo_rewritten)

/-- A numpy array object: a buffer identity (so that aliasing is
observable) together with its contents. -/
structure NArr (α : Type) where
  id : ℕ
  data : Grid α

/-- utils.flood_zones at the array-object level.  `zones_array` is only
read; `topo_array` is mutated in place (NaN cells rewritten to -999); the
result buffer is allocated fresh by `zones_array.copy()` (utils.py line
793), with `freshId` the identity of the newly allocated buffer.  Returns
(result, zones object after the call, topo object after the call). -/
def flood_zones_obj (zones : NArr ℤ) (topo : NArr FVal) (elevation : ℚ) (freshId : ℕ) :
    NArr ℤ × NArr ℤ × NArr FVal :=
  let p := flood_zones zones.data topo.data elevation
  (⟨freshId, p.1⟩, zones, ⟨topo.id, p.2⟩)

/-- C1: for every pair of (same-shaped) zone and elevation grids and every
threshold, the flood_zones output is 0 at every cell where the zone id is
non-positive; it keeps the zone id wherever the zone id is positive and
the (finite) elevation is at most the threshold, including a cell exactly
at the threshold; and it is 0 wherever the (finite) elevation exceeds the
threshold. -/
theorem flood_zones_masking_C1 (zones_array : Grid ℤ) (topo_array : Grid FVal)
    (threshold : ℚ) (i j : ℕ) :
    (zones_array i j ≤ 0 → (flood_zones zones_array topo_array threshold).1 i j = 0) ∧
    (∀ v : ℚ, topo_array i j = FVal.val v →
      (0 < zones_array i j → v ≤ threshold →
        (flood_zones zones_array topo_array threshold).1 i j = zones_array i j) ∧
      (threshold < v → (flood_zones zones_array topo_array threshold).1 i j = 0)) := by
  refine ⟨fun hz => ?_, fun v hv => ⟨fun hz hle => ?_, fun hgt => ?_⟩⟩
  · simp [flood_zones, maskedAssignZ, orMask, nonzoneMask, hz]
  · have hnz : ¬ zones_array i j ≤ 0 := not_le.mpr hz
    simp [flood_zones, maskedAssignZ, orMask, nonzoneMask, unfloodedMask,
      maskedAssignF, invalidMask, hv, FVal.isInvalid, FVal.gtScalar, hnz,
      not_lt.mpr hle]
  · by_cases hz : zones_array i j ≤ 0
    · simp [flood_zones, maskedAssignZ, orMask, nonzoneMask, hz]
    · simp [flood_zones, maskedAssignZ, orMask, nonzoneMask, unfloodedMask,
        maskedAssignF, invalidMask, hv, FVal.isInvalid, FVal.gtScalar, hz, hgt]

/-- Witness for C1 on the spec's own concrete example (spec §8): zone grid
cell (0,0) has id 1, elevation 1 ≤ threshold 4, so it keeps zone id 1; cell
(1,1) has id 2 and elevation 5 > 4, so it is masked to 0. -/
theorem flood_zones_masking_C1_witness :
    (fun i j => [[(1:ℤ),1,0],[2,2,0],[0,0,0]].getD i [] |>.getD j 0) 0 0 = 1 ∧
    (flood_zones
      (fun i j => [[(1:ℤ),1,0],[2,2,0],[0,0,0]].getD i [] |>.getD j 0)
      (fun i j => FVal.val ([[(1:ℚ),2,3],[4,5,6],[7,8,9]].getD i [] |>.getD j 0))
      4).1 0 0 = 1 ∧
    (flood_zones
      (fun i j => [[(1:ℤ),1,0],[2,2,0],[0,0,0]].getD i [] |>.getD j 0)
      (fun i j => FVal.val ([[(1:ℚ),2,3],[4,5,6],[7,8,9]].getD i [] |>.getD j 0))
      4).1 1 1 = 0 := by
  refine ⟨by decide, ?_, ?_⟩
  · exact ((flood_zones_masking_C1
      (fun i j => [[(1:ℤ),1,0],[2,2,0],[0,0,0]].getD i [] |>.getD j 0)
      (fun i j => FVal.val ([[(1:ℚ),2,3],[4,5,6],[7,8,9]].getD i [] |>.getD j 0))
      4 0 0).2 1 rfl).1 (by decide) (by decide)
  · exact ((flood_zones_masking_C1
      (fun i j => [[(1:ℤ),1,0],[2,2,0],[0,0,0]].getD i [] |>.getD j 0)
      (fun i j => FVal.val ([[(1:ℚ),2,3],[4,5,6],[7,8,9]].getD i [] |>.getD j 0))
      4 1 1).2 5 rfl).2 (by decide)

/-- Counterexample to C2: a NaN elevation cell with zone id 1 and threshold
0 is NOT excluded from the flood: the output cell keeps zone id 1, not 0.
(The NaN cell is rewritten to -999, and -999 > 0 is false, so the cell is
not masked; utils.py lines 785-794.) -/
theorem flood_zones_nan_C2_counterexample :
    ¬ ((flood_zones (fun _ _ => (1 : ℤ)) (fun _ _ => FVal.nan) 0).1 0 0 = 0) := by
  decide

/-- C2 as amended: a NaN elevation cell is normalized to the sentinel -999
and thereafter treated exactly like a cell with elevation -999 (the same
holds for a cell that already carries the -999 sentinel): it is excluded
from the flood only when its zone id is non-positive or the threshold is
below -999; for every threshold at least -999 it keeps its zone id. -/
theorem flood_zones_nan_C2_amended (zones_array : Grid ℤ) (topo_array : Grid FVal)
    (threshold : ℚ) (i j : ℕ)
    (h : topo_array i j = FVal.nan ∨ topo_array i j = FVal.val (-999)) :
    (flood_zones zones_array topo_array threshold).1 i j =
      if zones_array i j ≤ 0 ∨ threshold < -999 then 0 else zones_array i j := by
  have hrw : maskedAssignF topo_array (invalidMask topo_array) (FVal.val (-999)) i j =
      FVal.val (-999) := by
    rcases h with h | h <;>
      simp [maskedAssignF, invalidMask, h, FVal.isInvalid]
  by_cases hz : zones_array i j ≤ 0
  · simp [flood_zones, maskedAssignZ, orMask, nonzoneMask, hz]
  · by_cases ht : threshold < -999
    · simp only [flood_zones, maskedAssignZ, orMask, nonzoneMask, unfloodedMask, hrw]
      simp [FVal.gtScalar, hz, ht]
    · simp only [flood_zones, maskedAssignZ, orMask, nonzoneMask, unfloodedMask, hrw]
      simp [FVal.gtScalar, hz, ht]

/-- Witness for the amended C2: a NaN cell with zone id 7 and threshold 2
keeps zone id 7 (it is included in the flood). -/
theorem flood_zones_nan_C2_amended_witness :
    (flood_zones (fun _ _ => (7 : ℤ)) (fun _ _ => FVal.nan) 2).1 0 0 =
      if (7 : ℤ) ≤ 0 ∨ (2 : ℚ) < -999 then 0 else 7 :=
  flood_zones_nan_C2_amended (fun _ _ => (7 : ℤ)) (fun _ _ => FVal.nan) 2 0 0 (Or.inl rfl)

/-- C9: flood_zones mutates its elevation input in place (every NaN cell of
topo_array is rewritten to -999, every other cell is unchanged), leaves
zones_array entirely unchanged, and returns a freshly allocated array (a
copy made by `zones_array.copy()`), not an alias of zones_array.  The
hypothesis says the buffer allocated by `copy()` is fresh, i.e. distinct
from the zones buffer. -/
theorem flood_zones_frame_C9 (zones : NArr ℤ) (topo : NArr FVal) (elevation : ℚ)
    (freshId : ℕ) (hfresh : freshId ≠ zones.id) :
    (flood_zones_obj zones topo elevation freshId).1.id ≠ zones.id ∧
    (flood_zones_obj zones topo elevation freshId).2.1 = zones ∧
    (flood_zones_obj zones topo elevation freshId).2.2.id = topo.id ∧
    (∀ i j, topo.data i j = FVal.nan →
      (flood_zones_obj zones topo elevation freshId).2.2.data i j = FVal.val (-999)) ∧
    (∀ i j, topo.data i j ≠ FVal.nan →
      (flood_zones_obj zones topo elevation freshId).2.2.data i j = topo.data i j) ∧
    (flood_zones_obj zones topo elevation freshId).1.data =
      (flood_zones zones.data topo.data elevation).1 := by
  refine ⟨hfresh, rfl, rfl, fun i j hnan => ?_, fun i j hval => ?_, rfl⟩
  · simp [flood_zones_obj, flood_zones, maskedAssignF, invalidMask, hnan, FVal.isInvalid]
  · cases hv : topo.data i j with
    | nan => exact absurd hv hval
    | val v =>
        simp [flood_zones_obj, flood_zones, maskedAssignF, invalidMask, hv, FVal.isInvalid]

/-- Witness for C9: with a 1-cell NaN topo grid and zone grid of 3s, buffer
ids 0 (zones), 1 (topo), 2 (fresh result): the result buffer differs from
the zones buffer, zones are unchanged, and the NaN cell of topo now holds
-999. -/
theorem flood_zones_frame_C9_witness :
    (flood_zones_obj ⟨0, fun _ _ => (3 : ℤ)⟩ ⟨1, fun _ _ => FVal.nan⟩ 5 2).1.id ≠ 0 ∧
    (flood_zones_obj ⟨0, fun _ _ => (3 : ℤ)⟩ ⟨1, fun _ _ => FVal.nan⟩ 5 2).2.1 =
      ⟨0, fun _ _ => (3 : ℤ)⟩ ∧
    (flood_zones_obj ⟨0, fun _ _ => (3 : ℤ)⟩ ⟨1, fun _ _ => FVal.nan⟩ 5 2).2.2.data 0 0 =
      FVal.val (-999) := by
  have h := flood_zones_frame_C9 ⟨0, fun _ _ => (3 : ℤ)⟩ ⟨1, fun _ _ => FVal.nan⟩ 5 2
    (by decide)
  exact ⟨h.1, h.2.1, h.2.2.2.1 0 0 rfl⟩

/-- toolbox.py line 27: `SEALEVELRISE = numpy.arange(7)`, the sea-level-rise
steps 0..6 feet. -/
def SEALEVELRISE : List ℚ := [0, 1, 2, 3, 4, 5, 6]

/-- toolbox.py lines 28-31: the ordered surge-category table (name, offset
in feet). -/
def SURGES : List (String × ℚ) :=
  [("MHHW", 4.0), ("10yr", 8.0), ("50yr", 9.6), ("100yr", 10.5)]

/-- One scenario dictionary as built by StandardScenarios.make_scenarios
(toolbox.py lines 562-619). -/
structure Scenario where
  elev : Option ℚ
  surge_name : Option String
  surge_elev : Option ℚ
  slr : Option ℚ
deriving DecidableEq

/-- StandardScenarios.make_scenarios (toolbox.py lines 562-619): with no
custom elevations, one scenario per (surge category, sea-level-rise step)
pair; with custom elevations, one scenario per elevation. -/
def make_scenarios (elevations : Option (List ℚ)) : List Scenario :=
  match elevations with
  | none =>
      (SURGES.map (fun s =>
        SEALEVELRISE.map (fun r =>
          { elev := none, surge_name := some s.1, surge_elev := some s.2,
            slr := some r }))).flatten
  | some es =>
      es.map (fun e =>
        { elev := some e, surge_name := none, surge_elev := none, slr := none })

/-- The elevation computation of StandardScenarios._prep_flooder_input
(toolbox.py lines 376-381): a custom elevation is used as is; otherwise the
flood elevation is `slr + SURGES[surge]`.  `none` is returned where the
python would raise (missing surge/slr or unknown surge category). -/
def prep_flooder_elevation (elev : Option ℚ) (surge : Option String) (slr : Option ℚ) :
    Option ℚ :=
  match elev with
  | some e => some e
  | none => do
      let sname ← surge
      let soff ← SURGES.lookup sname
      let s ← slr
      pure (s + soff)

/-- C5: standard-mode enumeration (no custom elevations) yields exactly 28
scenarios, the Cartesian product of the 4 surge categories (MHHW=4.0,
10yr=8.0, 50yr=9.6, 100yr=10.5 feet) with the 7 sea-level-rise steps 0..6:
the (surge, slr) pairs are pairwise distinct, every (surge, slr)
combination occurs, and each scenario's computed flood elevation (as in
_prep_flooder_input) equals its surge offset plus its sea-level rise. -/
theorem make_scenarios_standard_C5 :
    (make_scenarios none).length = 28 ∧
    ((make_scenarios none).map (fun s => (s.surge_name, s.slr))).Nodup ∧
    (∀ s ∈ make_scenarios none,
      s.elev = none ∧
      prep_flooder_elevation s.elev s.surge_name s.slr =
        some (s.surge_elev.getD 0 + s.slr.getD 0)) ∧
    (make_scenarios none).map (fun s => (s.surge_name, s.surge_elev, s.slr)) =
      (SURGES.map (fun p =>
        SEALEVELRISE.map (fun r => (some p.1, some p.2, some r)))).flatten := by
  refine ⟨rfl, ?_, ?_, rfl⟩
  · simp [make_scenarios, SURGES, SEALEVELRISE]
  · intro s hs
    fin_cases hs <;>
      refine ⟨rfl, ?_⟩ <;>
      simp [prep_flooder_elevation, SURGES, List.lookup] <;> norm_num

/-- The row order used by `table.sort()` on a two-field numpy structured
array (utils.py line 1028): lexicographic by (group field, value field). -/
def rowLe {α β : Type} [LinearOrder α] [LinearOrder β] (a b : α × β) : Prop :=
  a.1 < b.1 ∨ (a.1 = b.1 ∧ a.2 ≤ b.2)

instance {α β : Type} [LinearOrder α] [LinearOrder β] :
    DecidableRel (@rowLe α β _ _) :=
  fun a b => decidable_of_iff (a.1 < b.1 ∨ (a.1 = b.1 ∧ a.2 ≤ b.2)) Iff.rfl

instance {α β : Type} [LinearOrder α] [LinearOrder β] : IsTotal (α × β) rowLe where
  total a b := by
    rcases lt_trichotomy a.1 b.1 with h | h | h
    · exact Or.inl (Or.inl h)
    · rcases le_total a.2 b.2 with h2 | h2
      · exact Or.inl (Or.inr ⟨h, h2⟩)
      · exact Or.inr (Or.inr ⟨h.symm, h2⟩)
    · exact Or.inr (Or.inl h)

instance {α β : Type} [LinearOrder α] [LinearOrder β] : IsTrans (α × β) rowLe where
  trans a b c hab hbc := by
    rcases hab with h1 | ⟨h1, h1v⟩
    · rcases hbc with h2 | ⟨h2, _⟩
      · exact Or.inl (h1.trans h2)
      · exact Or.inl (h2 ▸ h1)
    · rcases hbc with h2 | ⟨h2, h2v⟩
      · exact Or.inl (h1 ▸ h2)
      · exact Or.inr ⟨h1.trans h2, h1v.trans h2v⟩

instance {α β : Type} [LinearOrder α] [LinearOrder β] : IsAntisymm (α × β) rowLe where
  antisymm a b hab hba := by
    rcases hab with h1 | ⟨h1, h1v⟩
    · rcases hba with h2 | ⟨h2, _⟩
      · exact absurd (h1.trans h2) (lt_irrefl _)
      · exact absurd h1 (h2 ▸ lt_irrefl _)
    · rcases hba with h2 | ⟨h2, h2v⟩
      · exact absurd h2 (h1 ▸ lt_irrefl _)
      · exact Prod.ext h1 (le_antisymm h1v h2v)

/-- numpy `table.sort()` on the extracted two-field table: a full sort in
the lexicographic row order. -/
def sortRows {α β : Type} [LinearOrder α] [LinearOrder β] (l : List (α × β)) :
    List (α × β) :=
  List.insertionSort rowLe l

theorem sortRows_perm {α β : Type} [LinearOrder α] [LinearOrder β] (l : List (α × β)) :
    List.Perm (sortRows l) l :=
  List.perm_insertionSort rowLe l

theorem sortRows_sorted {α β : Type} [LinearOrder α] [LinearOrder β] (l : List (α × β)) :
    List.Sorted rowLe (sortRows l) :=
  List.sorted_insertionSort rowLe l

theorem sortRows_eq_of_perm {α β : Type} [LinearOrder α] [LinearOrder β]
    {l₁ l₂ : List (α × β)} (h : List.Perm l₁ l₂) : sortRows l₁ = sortRows l₂ :=
  List.eq_of_perm_of_sorted ((sortRows_perm l₁).trans (h.trans (sortRows_perm l₂).symm))
    (sortRows_sorted l₁) (sortRows_sorted l₂)

theorem sortRows_keySorted {α β : Type} [LinearOrder α] [LinearOrder β]
    (l : List (α × β)) : (sortRows l).Pairwise (fun a b => a.1 ≤ b.1) :=
  (sortRows_sorted l).imp (fun h => h.elim le_of_lt (fun h2 => le_of_eq h2.1))

instance {γ : Type} (l : List γ) : Decidable (l = []) :=
  match l with
  | [] => Decidable.isTrue rfl
  | _ :: _ => Decidable.isFalse (by simp)

/-- Python dict lookup (`counts.get`, returning `none` for a missing key). -/
def alookup {κ W : Type} [DecidableEq κ] (k : κ) : List (κ × W) → Option W
  | [] => none
  | p :: rest => if k = p.1 then some p.2 else alookup k rest

/-- One step of run-formation: prepend a row to a run list, merging it into
the first run when the keys agree (mirrors the consecutive grouping of
`itertools.groupby`, utils.py line 1031). -/
def groupCons {κ V : Type} [DecidableEq κ] (r : κ × V) :
    List (κ × List (κ × V)) → List (κ × List (κ × V))
  | [] => [(r.1, [r])]
  | (k, g) :: gs => if r.1 = k then (r.1, r :: g) :: gs else (r.1, [r]) :: (k, g) :: gs

/-- `itertools.groupby`: maximal runs of consecutive rows sharing a key,
each run keeping its full rows (the `aggfxn` receives the row tuples). -/
def groupRuns {κ V : Type} [DecidableEq κ] : List (κ × V) → List (κ × List (κ × V))
  | [] => []
  | r :: rest => groupCons r (groupRuns rest)

theorem groupRuns_cons_head {κ V : Type} [DecidableEq κ] (s : κ × V) (t : List (κ × V)) :
    ∃ g gs, groupRuns (s :: t) = (s.1, g) :: gs := by
  cases h : groupRuns t with
  | nil => exact ⟨[s], [], by simp [groupRuns, h, groupCons]⟩
  | cons p gs =>
      obtain ⟨k, g⟩ := p
      by_cases hk : s.1 = k
      · exact ⟨s :: g, gs, by simp [groupRuns, h, groupCons, hk]⟩
      · exact ⟨[s], (k, g) :: gs, by simp [groupRuns, h, groupCons, hk]⟩

theorem alookup_groupRuns {κ V : Type} [LinearOrder κ] (l : List (κ × V))
    (hs : l.Pairwise (fun a b => a.1 ≤ b.1)) (k : κ) :
    alookup k (groupRuns l) =
      if l.filter (fun r => decide (r.1 = k)) = [] then none
      else some (l.filter (fun r => decide (r.1 = k))) := by
  induction l with
  | nil => simp [groupRuns, alookup]
  | cons r rest ih =>
      rw [List.pairwise_cons] at hs
      obtain ⟨hr, hrest⟩ := hs
      cases rest with
      | nil =>
          by_cases hk : k = r.1
          · simp [groupRuns, groupCons, alookup, hk, List.filter]
          · have hk2 : ¬ r.1 = k := fun h => hk h.symm
            simp [groupRuns, groupCons, alookup, hk, hk2, List.filter]
      | cons s t =>
          obtain ⟨g, gs, hgr⟩ := groupRuns_cons_head s t
          have e1 : groupRuns (r :: s :: t) = groupCons r (groupRuns (s :: t)) := rfl
          have ihr := ih hrest
          rw [hgr] at ihr
          by_cases hks : r.1 = s.1
          · have e2 : groupRuns (r :: s :: t) = (r.1, r :: g) :: gs := by
              rw [e1, hgr]; simp [groupCons, hks]
            by_cases hk : k = r.1
            · have hlk : alookup k ((s.1, g) :: gs) = some g := by
                simp [alookup, hk, hks]
              rw [hlk] at ihr
              have hfil : ¬ ((s :: t).filter (fun r => decide (r.1 = k)) = []) := by
                intro hnil
                rw [hnil] at ihr; simp at ihr
              rw [if_neg hfil] at ihr
              have hg : g = (s :: t).filter (fun r => decide (r.1 = k)) :=
                Option.some_injective _ ihr
              have hfr : (r :: s :: t).filter (fun x => decide (x.1 = k)) =
                  r :: (s :: t).filter (fun x => decide (x.1 = k)) := by
                rw [List.filter_cons_of_pos (by simp [hk])]
              rw [e2]
              simp only [alookup, if_pos hk]
              rw [hfr, if_neg (by simp), hg]
            · have hks2 : ¬ k = s.1 := fun h => hk (h.trans hks.symm)
              have hlk : alookup k ((s.1, g) :: gs) = alookup k gs := by
                simp [alookup, hks2]
              rw [hlk] at ihr
              have hfr : (r :: s :: t).filter (fun x => decide (x.1 = k)) =
                  (s :: t).filter (fun x => decide (x.1 = k)) := by
                rw [List.filter_cons_of_neg (by simp; exact fun h => hk h.symm)]
              rw [e2]
              simp only [alookup, if_neg hk]
              rw [hfr]
              exact ihr
          · have e2 : groupRuns (r :: s :: t) = (r.1, [r]) :: (s.1, g) :: gs := by
              rw [e1, hgr]; simp [groupCons, hks]
            by_cases hk : k = r.1
            · have hnone : ∀ x ∈ s :: t, ¬ (x.1 = k) := by
                intro x hx hxk
                have hrs : r.1 < s.1 :=
                  lt_of_le_of_ne (hr s (List.mem_cons_self s t)) hks
                cases hx with
                | head =>
                    exact hks (hxk.trans hk).symm
                | tail _ hxt =>
                    rw [List.pairwise_cons] at hrest
                    have hsx : s.1 ≤ x.1 := hrest.1 x hxt
                    rw [hxk, hk] at hsx
                    exact absurd (lt_of_le_of_lt hsx hrs) (lt_irrefl _)
              have hfil : (s :: t).filter (fun x => decide (x.1 = k)) = [] := by
                rw [List.filter_eq_nil_iff]
                intro x hx
                simpa using hnone x hx
              have hfr : (r :: s :: t).filter (fun x => decide (x.1 = k)) = [r] := by
                rw [List.filter_cons_of_pos (by simp [hk]), hfil]
              rw [e2]
              simp only [alookup, if_pos hk]
              rw [hfr, if_neg (by simp)]
            · have hfr : (r :: s :: t).filter (fun x => decide (x.1 = k)) =
                  (s :: t).filter (fun x => decide (x.1 = k)) := by
                rw [List.filter_cons_of_neg (by simp; exact fun h => hk h.symm)]
              rw [e2]
              simp only [alookup, if_neg hk]
              rw [hfr]
              exact ihr

theorem alookup_map_agg {κ V W : Type} [DecidableEq κ] (agg : List (κ × V) → W)
    (gs : List (κ × List (κ × V))) (k : κ) :
    alookup k (gs.map (fun p => (p.1, agg p.2))) = (alookup k gs).map agg := by
  induction gs with
  | nil => rfl
  | cons p gs ih => by_cases hk : k = p.1 <;> simp [alookup, hk, ih]

/-- The errors raised by the utils-layer field plumbing: the ValueError of
`_check_fields` (utils.py line 356), carrying the offending names and the
direction of the check, and the ValueError of add_field_with_value when
neither a value nor a type is given (utils.py line 859). -/
inductive TGError
  | checkFailed (bad : List String) (should_exist : Bool)
  | needFieldType
deriving DecidableEq

/-- The `bad_names` list built by utils._check_fields (utils.py lines
343-348): names whose existence disagrees with `should_exist`, always
exempting the geometry token SHAPE@AREA. -/
def badFieldNames (existing fieldnames : List String) (should_exist : Bool) :
    List String :=
  fieldnames.filter
    (fun name => (should_exist != existing.contains name) && (name != "SHAPE@AREA"))

/-- utils._check_fields (utils.py lines 317-356): raises iff the bad-name
list is nonempty. -/
def check_fields (existing fieldnames : List String) (should_exist : Bool) :
    Except TGError Unit :=
  if badFieldNames existing fieldnames should_exist = [] then Except.ok ()
  else Except.error (TGError.checkFailed (badFieldNames existing fieldnames should_exist)
    should_exist)

/-- An attribute table as consumed by groupby_and_aggregate: the declared
schema (what `arcpy.ListFields` reports) and the rows, each resolving any
field token to a (numeric) value; geometry tokens such as SHAPE@AREA are
resolvable on every row even though they are never in the schema. -/
structure GTable where
  schema : List String
  rows : List (String → ℚ)

/-- `arcpy.da.TableToNumPyArray(layer, [groupfield, valuefield])`
(utils.py line 1025): the two-column extraction of the table. -/
def tableToPairs (t : GTable) (groupfield valuefield : String) : List (ℚ × ℚ) :=
  t.rows.map (fun r => (r groupfield, r valuefield))

/-- The default aggfxn of utils.groupby_and_aggregate (utils.py line 1017):
`int(numpy.unique(list(x)).shape[0])`, the number of distinct rows in the
group. -/
def defaultAgg (g : List (ℚ × ℚ)) : ℤ := g.dedup.length

/-- The aggfxn used by analysis.area_of_impacts (analysis.py line 326):
`lambda group: sum([row[1] for row in group])`. -/
def sumAgg (g : List (ℚ × ℚ)) : ℚ := (g.map Prod.snd).sum

/-- utils.groupby_and_aggregate (utils.py lines 957-1035): check that both
fields exist (exempting SHAPE@AREA), extract the two columns, fully sort
the rows, group consecutive equal keys, and aggregate each group. -/
def groupby_and_aggregate {W : Type} (t : GTable) (groupfield valuefield : String)
    (aggfxn : List (ℚ × ℚ) → W) : Except TGError (List (ℚ × W)) := do
  check_fields t.schema [groupfield, valuefield] true
  pure ((groupRuns (sortRows (tableToPairs t groupfield valuefield))).map
    (fun p => (p.1, aggfxn p.2)))

/-- C4: groupby_and_aggregate applied to two tables holding the same rows
in any order (same schema, same group field, value field and reducer)
returns an identical mapping, because the rows are fully sorted before
grouping. -/
theorem groupby_and_aggregate_perm_C4 {W : Type} (t₁ t₂ : GTable)
    (groupfield valuefield : String) (aggfxn : List (ℚ × ℚ) → W)
    (hschema : t₁.schema = t₂.schema) (hrows : List.Perm t₁.rows t₂.rows) :
    groupby_and_aggregate t₁ groupfield valuefield aggfxn =
      groupby_and_aggregate t₂ groupfield valuefield aggfxn := by
  have hpairs : List.Perm (tableToPairs t₁ groupfield valuefield)
      (tableToPairs t₂ groupfield valuefield) := hrows.map _
  have hsort : sortRows (tableToPairs t₁ groupfield valuefield) =
      sortRows (tableToPairs t₂ groupfield valuefield) := sortRows_eq_of_perm hpairs
  simp only [groupby_and_aggregate, hschema, hsort]

/-- Witness for C4: two concrete two-row tables with the rows swapped give
the same aggregation result. -/
theorem groupby_and_aggregate_perm_C4_witness :
    groupby_and_aggregate
      ⟨["G", "V"], [fun f => if f = "G" then 1 else 10, fun f => if f = "G" then 2 else 20]⟩
      "G" "V" sumAgg =
    groupby_and_aggregate
      ⟨["G", "V"], [fun f => if f = "G" then 2 else 20, fun f => if f = "G" then 1 else 10]⟩
      "G" "V" sumAgg :=
  groupby_and_aggregate_perm_C4 _ _ "G" "V" sumAgg rfl
    (List.Perm.swap (fun f => if f = "G" then 2 else 20)
      (fun f => if f = "G" then 1 else 10) [])

/-- Counterexample to C7: the value field SHAPE@AREA is absent from the
table's schema, yet groupby_and_aggregate does not raise the
field-not-found error: the existence check unconditionally exempts
SHAPE@AREA (utils.py line 347). -/
theorem groupby_field_check_C7_counterexample :
    groupby_and_aggregate ⟨["GeoID"], []⟩ "GeoID" "SHAPE@AREA" sumAgg =
      Except.ok [] := rfl

/-- C7 as amended: for every table and every pair of field names, if the
group field or the value field is absent from the table's schema and is
not the exempt geometry token SHAPE@AREA, groupby_and_aggregate raises the
field-not-found error, via the explicit existence check performed before
the grouping pass begins: the error is raised for every row list,
including the empty one on which a failure on first access could never
fire. -/
theorem groupby_field_check_C7_amended {W : Type} (t : GTable)
    (groupfield valuefield : String) (aggfxn : List (ℚ × ℚ) → W)
    (h : (groupfield ∉ t.schema ∧ groupfield ≠ "SHAPE@AREA") ∨
         (valuefield ∉ t.schema ∧ valuefield ≠ "SHAPE@AREA")) :
    badFieldNames t.schema [groupfield, valuefield] true ≠ [] ∧
    groupby_and_aggregate t groupfield valuefield aggfxn =
      Except.error (TGError.checkFailed
        (badFieldNames t.schema [groupfield, valuefield] true) true) := by
  have hbad : badFieldNames t.schema [groupfield, valuefield] true ≠ [] := by
    rcases h with ⟨hmem, hname⟩ | ⟨hmem, hname⟩
    · exact List.ne_nil_of_mem (List.mem_filter.mpr
        ⟨List.mem_cons_self _ _, by simp [hmem, hname]⟩)
    · exact List.ne_nil_of_mem (List.mem_filter.mpr
        ⟨List.mem_cons_of_mem _ (List.mem_cons_self _ _), by simp [hmem, hname]⟩)
  refine ⟨hbad, ?_⟩
  simp only [groupby_and_aggregate, check_fields, if_neg hbad]
  rfl

/-- Witness for the amended C7: a table with schema [GeoID] and no rows,
queried with the missing group field "TidegateID": the field-not-found
error is raised before any row is visited. -/
theorem groupby_field_check_C7_amended_witness :
    badFieldNames ["GeoID"] ["TidegateID", "GeoID"] true ≠ [] ∧
    groupby_and_aggregate ⟨["GeoID"], []⟩ "TidegateID" "GeoID" sumAgg =
      Except.error (TGError.checkFailed
        (badFieldNames ["GeoID"] ["TidegateID", "GeoID"] true) true) :=
  groupby_field_check_C7_amended ⟨["GeoID"], []⟩ "TidegateID" "GeoID" sumAgg
    (Or.inl ⟨by decide, by decide⟩)

/-- C10: the field-existence checker exempts SHAPE@AREA unconditionally:
for every table it never reports SHAPE@AREA, neither as missing
(should_exist = true) nor as already present (should_exist = false);
consequently groupby_and_aggregate with value field SHAPE@AREA never
raises the field-not-found error for that field (whenever the group field
itself passes the check, the call succeeds). -/
theorem check_fields_shape_area_C10 :
    (∀ (existing fieldnames : List String) (should_exist : Bool),
      "SHAPE@AREA" ∉ badFieldNames existing fieldnames should_exist) ∧
    (∀ (t : GTable) (groupfield : String) (aggfxn : List (ℚ × ℚ) → ℚ),
      groupfield ∈ t.schema →
      ∃ res, groupby_and_aggregate t groupfield "SHAPE@AREA" aggfxn = Except.ok res) := by
  constructor
  · intro existing fieldnames should_exist hmem
    have := (List.mem_filter.mp hmem).2
    simp at this
  · intro t groupfield aggfxn hmem
    have hbad : badFieldNames t.schema [groupfield, "SHAPE@AREA"] true = [] := by
      rw [badFieldNames, List.filter_eq_nil_iff]
      intro a ha
      rcases List.mem_cons.mp ha with rfl | ha2
      · simp [hmem]
      · rcases List.mem_cons.mp ha2 with rfl | ha3
        · simp
        · exact absurd ha3 (List.not_mem_nil a)
    refine ⟨(groupRuns (sortRows (tableToPairs t groupfield "SHAPE@AREA"))).map
      (fun p => (p.1, aggfxn p.2)), ?_⟩
    simp only [groupby_and_aggregate, check_fields, if_pos hbad]
    rfl

/-- Witness for C10: SHAPE@AREA is not reported on a table that lacks it,
and a groupby over a concrete table with value field SHAPE@AREA succeeds. -/
theorem check_fields_shape_area_C10_witness :
    "SHAPE@AREA" ∉ badFieldNames ["GeoID"] ["SHAPE@AREA"] true ∧
    ∃ res, groupby_and_aggregate ⟨["GeoID"], []⟩ "GeoID" "SHAPE@AREA" sumAgg =
      Except.ok res :=
  ⟨check_fields_shape_area_C10.1 ["GeoID"] ["SHAPE@AREA"] true,
   check_fields_shape_area_C10.2 ⟨["GeoID"], []⟩ "GeoID" sumAgg (by decide)⟩

/-- Esri field types used by add_field_with_value's typemap (utils.py
lines 843-849). -/
inductive FieldType
  | long
  | double
  | text
deriving DecidableEq

/-- A python value stored into an attribute field. -/
inductive FieldValue
  | int : ℤ → FieldValue
  | float : ℚ → FieldValue
  | text : String → FieldValue
deriving DecidableEq

/-- The `typemap` of add_field_with_value (utils.py lines 843-849): the
Esri field type inferred from the python type of the value. -/
def typemap : FieldValue → FieldType
  | FieldValue.int _ => FieldType.long
  | FieldValue.float _ => FieldType.double
  | FieldValue.text _ => FieldType.text

/-- A row of an attribute table: resolves a field name to its value
(`none` where the field holds no value yet). -/
def RowF : Type := String → Option FieldValue

/-- An attribute table with a typed field list (what `arcpy.ListFields`
reports) and its rows. -/
structure FTable where
  fields : List (String × FieldType)
  rows : List RowF

/-- `arcpy.management.AddField` (utils.py lines 862-867): declares the
field with the given type, replacing any previous declaration of the same
name; the new field holds no value yet in any row. -/
def addFieldDecl (t : FTable) (field_name : String) (field_type : FieldType) : FTable :=
  { fields := (t.fields.filter (fun p => p.1 != field_name)) ++ [(field_name, field_type)],
    rows := t.rows.map (fun r => fun f => if f = field_name then none else r f) }

/-- utils.populate_field (utils.py lines 1060-1108): after checking that
the key fields and the value field exist, set the value field of every row
to the result of `value_fxn` on that row. -/
def populate_field (t : FTable) (value_fxn : RowF → FieldValue) (valuefield : String)
    (keyfields : List String) : Except TGError FTable := do
  check_fields (t.fields.map Prod.fst) (keyfields ++ [valuefield]) true
  pure { t with
    rows := t.rows.map (fun r => fun f =>
      if f = valuefield then some (value_fxn r) else r f) }

/-- utils.add_field_with_value (utils.py lines 800-871): infer the field
type from the value unless given explicitly; unless `overwrite`, check
that the field does not already exist (raising ValueError when it does);
raise when neither a value nor a type is available; add the field; and if
a value was given, populate every row with it. -/
def add_field_with_value (t : FTable) (field_name : String)
    (field_value : Option FieldValue) (overwrite : Bool)
    (field_type : Option FieldType) : Except TGError FTable := do
  let ftype := match field_type with
    | some ft => some ft
    | none => field_value.map typemap
  if overwrite = false then
    check_fields (t.fields.map Prod.fst) [field_name] false
  match ftype with
  | none => Except.error TGError.needFieldType
  | some ft =>
      let t1 := addFieldDecl t field_name ft
      match field_value with
      | none => pure t1
      | some v => populate_field t1 (fun _ => v) field_name []

theorem alookup_append_key {κ W : Type} [DecidableEq κ] (k : κ) (w : W)
    (l : List (κ × W)) (h : ∀ p ∈ l, ¬ p.1 = k) :
    alookup k (l ++ [(k, w)]) = some w := by
  induction l with
  | nil => simp [alookup]
  | cons p rest ih =>
      have hp : ¬ k = p.1 := fun he => h p (List.mem_cons_self p rest) he.symm
      rw [List.cons_append]
      simp only [alookup, if_neg hp]
      exact ih (fun q hq => h q (List.mem_cons_of_mem _ hq))

/-- C6: on any (arcpy-realizable) table, adding a field that already
exists with overwrite = False raises the field-already-exists ValueError
(the table is not modified: the error aborts before AddField runs), while
with overwrite = True the call succeeds and the field's resulting type and
value reflect the latest call: the declared type is the one given (or
inferred from the value) and every row holds the new value.  The
hypothesis `hwf` states that the table does not list the geometry token
SHAPE@AREA among its fields; arcpy field names cannot contain `@`, so
every real table satisfies it (the exempt token is the subject of C10). -/
theorem add_field_overwrite_C6 (t : FTable) (field_name : String) (v : FieldValue)
    (field_type : Option FieldType)
    (hwf : "SHAPE@AREA" ∉ t.fields.map Prod.fst) :
    (field_name ∈ t.fields.map Prod.fst →
      add_field_with_value t field_name (some v) false field_type =
        Except.error (TGError.checkFailed [field_name] false)) ∧
    (∃ t', add_field_with_value t field_name (some v) true field_type = Except.ok t' ∧
      alookup field_name t'.fields = some (field_type.getD (typemap v)) ∧
      t'.rows.length = t.rows.length ∧
      ∀ r ∈ t'.rows, r field_name = some v) := by
  constructor
  · intro hmem
    have hne : field_name ≠ "SHAPE@AREA" := fun he => hwf (he ▸ hmem)
    have hbadEq : badFieldNames (t.fields.map Prod.fst) [field_name] false =
        [field_name] := by
      simp [badFieldNames, hmem, hne]
    simp only [add_field_with_value, check_fields, hbadEq]
    rfl
  · have hmem1 : ∀ ft : FieldType,
        field_name ∈ (addFieldDecl t field_name ft).fields.map Prod.fst := by
      intro ft
      simp [addFieldDecl]
    have hchk : ∀ ft : FieldType,
        badFieldNames ((addFieldDecl t field_name ft).fields.map Prod.fst)
          [field_name] true = [] := by
      intro ft
      simp [badFieldNames, hmem1 ft]
    have hlk : ∀ ft : FieldType,
        alookup field_name (addFieldDecl t field_name ft).fields = some ft := by
      intro ft
      refine alookup_append_key field_name ft _ (fun p hp => ?_)
      have := (List.mem_filter.mp hp).2
      simpa using this
    have key : ∀ ft : FieldType, field_type.getD (typemap v) = ft →
        ∃ t', add_field_with_value t field_name (some v) true field_type =
            Except.ok t' ∧
          alookup field_name t'.fields = some (field_type.getD (typemap v)) ∧
          t'.rows.length = t.rows.length ∧
          ∀ r ∈ t'.rows, r field_name = some v := by
      intro ft hft
      refine ⟨{ fields := (addFieldDecl t field_name ft).fields,
                rows := (addFieldDecl t field_name ft).rows.map (fun r => fun f =>
                  if f = field_name then some v else r f) }, ?_, ?_, ?_, ?_⟩
      · cases field_type with
        | none =>
            have hft2 : typemap v = ft := by simpa using hft
            simp [add_field_with_value, populate_field, check_fields, hft2, hchk ft]
        | some ft0 =>
            have hft2 : ft0 = ft := by simpa using hft
            subst hft2
            simp [add_field_with_value, populate_field, check_fields, hchk ft0]
      · rw [hft]
        exact hlk ft
      · simp [addFieldDecl]
      · intro r hr
        obtain ⟨r0, _, rfl⟩ := List.mem_map.mp hr
        simp
    exact key (field_type.getD (typemap v)) rfl

/-- Witness for C6 on a concrete one-row table with field GeoID: adding
GeoID again with overwrite = False errors; with overwrite = True it
succeeds with the latest type and value. -/
theorem add_field_overwrite_C6_witness :
    ("GeoID" ∈ (FTable.mk [("GeoID", FieldType.long)]
        [fun f => if f = "GeoID" then some (FieldValue.int 1) else none]).fields.map
          Prod.fst →
      add_field_with_value
        (FTable.mk [("GeoID", FieldType.long)]
          [fun f => if f = "GeoID" then some (FieldValue.int 1) else none])
        "GeoID" (some (FieldValue.float 2)) false none =
        Except.error (TGError.checkFailed ["GeoID"] false)) ∧
    (∃ t', add_field_with_value
        (FTable.mk [("GeoID", FieldType.long)]
          [fun f => if f = "GeoID" then some (FieldValue.int 1) else none])
        "GeoID" (some (FieldValue.float 2)) true none = Except.ok t' ∧
      alookup "GeoID" t'.fields = some ((none : Option FieldType).getD
        (typemap (FieldValue.float 2))) ∧
      t'.rows.length = (FTable.mk [("GeoID", FieldType.long)]
        [fun f => if f = "GeoID" then some (FieldValue.int 1) else none]).rows.length ∧
      ∀ r ∈ t'.rows, r "GeoID" = some (FieldValue.float 2)) :=
  add_field_overwrite_C6
    (FTable.mk [("GeoID", FieldType.long)]
      [fun f => if f = "GeoID" then some (FieldValue.int 1) else none])
    "GeoID" (FieldValue.float 2) none (by decide)

/-- A computation over one global arcpy environment variable of type σ
(the workspace path, or the overwrite flag): from the current value of the
global it produces a result — `Except.ok` for normal completion or
`Except.error` for a raised exception — together with the value the global
holds afterwards. -/
def EnvComp (σ ε α : Type) : Type := σ → Except ε α × σ

/-- The context-manager protocol shared by utils.WorkSpace (utils.py lines
224-256) and utils.OverwriteState (lines 196-221): `__init__` captures the
prior value of the global, `__enter__` writes the new value, the body runs,
and `__exit__` unconditionally restores the prior value — also when the
body raised, in which case the exception keeps propagating. -/
def scoped_env {σ ε α : Type} (newVal : σ) (body : EnvComp σ ε α) : EnvComp σ ε α :=
  fun g =>
    let orig := g
    let p := body newVal
    (p.1, orig)

/-- `with WorkSpace(path): body` (utils.py lines 224-256). -/
def WorkSpaceRun {ε α : Type} (path : String) (body : EnvComp String ε α) :
    EnvComp String ε α :=
  scoped_env path body

/-- `with OverwriteState(overwrite): body` (utils.py lines 196-221); the
constructor coerces its argument with `bool(...)`. -/
def OverwriteStateRun {ε α : Type} (overwrite : Bool) (body : EnvComp Bool ε α) :
    EnvComp Bool ε α :=
  scoped_env overwrite body

/-- C8: entering a WorkSpace (resp. OverwriteState) scope sets the global
to the new value — the body runs against `newVal` — and exiting restores
the global to exactly the value it held immediately before the scope was
entered, whether the body completed normally or raised (the body is an
arbitrary computation returning ok or error).  Under nesting, an inner
scope run inside an outer one restores the global to the
immediately-enclosing scope's value, not the process-start value. -/
theorem scoped_env_restore_C8 {ε α : Type} (prior newPath : String)
    (body : EnvComp String ε α) (priorFlag newFlag : Bool)
    (flagBody : EnvComp Bool ε α) :
    (WorkSpaceRun newPath body prior = ((body newPath).1, prior)) ∧
    (OverwriteStateRun newFlag flagBody priorFlag = ((flagBody newFlag).1, priorFlag)) ∧
    (∀ (innerPath : String) (innerBody : EnvComp String ε α),
      (WorkSpaceRun newPath
        (fun g => WorkSpaceRun innerPath innerBody g) prior).2 = prior ∧
      (WorkSpaceRun innerPath innerBody newPath).2 = newPath) :=
  ⟨rfl, rfl, fun _ _ => ⟨rfl, rfl⟩⟩

theorem groupby_ok {W : Type} (t : GTable) (g v : String)
    (agg : List (ℚ × ℚ) → W)
    (hbad : badFieldNames t.schema [g, v] true = []) :
    groupby_and_aggregate t g v agg =
      Except.ok ((groupRuns (sortRows (tableToPairs t g v))).map
        (fun p => (p.1, agg p.2))) := by
  simp only [groupby_and_aggregate, check_fields, if_pos hbad]
  rfl

theorem alookup_groupby_result {W : Type} (t : GTable) (g v : String)
    (agg : List (ℚ × ℚ) → W) (k : ℚ) :
    alookup k ((groupRuns (sortRows (tableToPairs t g v))).map
        (fun p => (p.1, agg p.2))) =
      if (tableToPairs t g v).filter (fun p => decide (p.1 = k)) = [] then none
      else some (agg ((sortRows (tableToPairs t g v)).filter
        (fun p => decide (p.1 = k)))) := by
  rw [alookup_map_agg, alookup_groupRuns _ (sortRows_keySorted _) k]
  have hperm : List.Perm
      ((sortRows (tableToPairs t g v)).filter (fun p => decide (p.1 = k)))
      ((tableToPairs t g v).filter (fun p => decide (p.1 = k))) :=
    (sortRows_perm _).filter _
  by_cases hnil : (tableToPairs t g v).filter (fun p => decide (p.1 = k)) = []
  · have hs : (sortRows (tableToPairs t g v)).filter (fun p => decide (p.1 = k)) = [] := by
      rw [hnil] at hperm
      exact hperm.eq_nil
    rw [if_pos hs, if_pos hnil]
    rfl
  · have hs : ¬ ((sortRows (tableToPairs t g v)).filter (fun p => decide (p.1 = k)) = []) := by
      intro h0
      rw [h0] at hperm
      exact hnil hperm.symm.eq_nil
    rw [if_neg hs, if_neg hnil]
    rfl

theorem sumAgg_filter (l : List (ℚ × ℚ)) (k : ℚ) :
    sumAgg ((sortRows l).filter (fun p => decide (p.1 = k))) =
      ((l.filter (fun p => decide (p.1 = k))).map Prod.snd).sum :=
  (((sortRows_perm l).filter _).map Prod.snd).sum_eq

theorem fst_of_mem_filter_key (l : List (ℚ × ℚ)) (k : ℚ) (p : ℚ × ℚ)
    (hp : p ∈ l.filter (fun q => decide (q.1 = k))) : p.1 = k := by
  have := (List.mem_filter.mp hp).2
  simpa using this

theorem dedup_length_map_snd (A : List (ℚ × ℚ)) (k : ℚ) (hA : ∀ p ∈ A, p.1 = k) :
    A.dedup.length = (A.map Prod.snd).dedup.length := by
  have h1 : A.toFinset = ((A.map Prod.snd).toFinset).image (fun b => (k, b)) := by
    ext x
    simp only [List.mem_toFinset, Finset.mem_image, List.mem_map]
    constructor
    · intro hx
      refine ⟨x.2, ⟨x, hx, rfl⟩, ?_⟩
      rw [← hA x hx]
    · rintro ⟨b, ⟨a, ha, rfl⟩, rfl⟩
      rw [← hA a ha]
      exact ha
  have hinj : Function.Injective (fun b : ℚ => (k, b)) := by
    intro b₁ b₂ h
    simpa using h
  calc A.dedup.length
      = A.toFinset.card := (List.card_toFinset A).symm
    _ = ((A.map Prod.snd).toFinset.image (fun b => (k, b))).card := by rw [h1]
    _ = (A.map Prod.snd).toFinset.card := Finset.card_image_of_injective _ hinj
    _ = (A.map Prod.snd).dedup.length := List.card_toFinset _

theorem defaultAgg_filter (l : List (ℚ × ℚ)) (k : ℚ) :
    defaultAgg ((sortRows l).filter (fun p => decide (p.1 = k))) =
      (((l.filter (fun p => decide (p.1 = k))).map Prod.snd).dedup.length : ℤ) := by
  have hperm : List.Perm ((sortRows l).filter (fun p => decide (p.1 = k)))
      (l.filter (fun p => decide (p.1 = k))) := (sortRows_perm l).filter _
  have h1 : ((sortRows l).filter (fun p => decide (p.1 = k))).dedup.length =
      (l.filter (fun p => decide (p.1 = k))).dedup.length := by
    rw [← List.card_toFinset, ← List.card_toFinset,
      List.toFinset_eq_of_perm _ _ hperm]
  have h2 : (l.filter (fun p => decide (p.1 = k))).dedup.length =
      ((l.filter (fun p => decide (p.1 = k))).map Prod.snd).dedup.length :=
    dedup_length_map_snd _ k (fst_of_mem_filter_key l k)
  rw [defaultAgg, h1, h2]

/-- The numeric reading of an attribute value, used to key the python
dict lookup `dict.get(row[0], sentinel)` in the field-population lambdas
(analysis.py lines 332 and 406); the id columns are numeric. -/
def rowQ (r : RowF) (f : String) : ℚ :=
  match r f with
  | some (FieldValue.int n) => (n : ℚ)
  | some (FieldValue.float q) => q
  | _ => 0

/-- The aggregation and field-population steps of analysis.area_of_impacts
(analysis.py lines 322-335): sum the intersected-asset areas per zone id
via groupby_and_aggregate (value field SHAPE@AREA, sum reducer), add the
'wetlands' DOUBLE field with overwrite, and populate it per row with
`flooded_asset_areas.get(row[0], -999)`.  `assets` is the table of
dissolved flood/wetland intersections. -/
def area_of_impacts_populate (floods : FTable) (flood_idcol : String)
    (assets : GTable) : Except TGError FTable :=
  match groupby_and_aggregate assets flood_idcol "SHAPE@AREA" sumAgg with
  | Except.error e => Except.error e
  | Except.ok flooded_asset_areas =>
      match add_field_with_value floods "wetlands" none true (some FieldType.double) with
      | Except.error e => Except.error e
      | Except.ok floods1 =>
          populate_field floods1
            (fun row => FieldValue.float
              ((alookup (rowQ row flood_idcol) flooded_asset_areas).getD (-999)))
            "wetlands" [flood_idcol]

/-- The aggregation and field-population steps of analysis.count_of_impacts
(analysis.py lines 396-409): count distinct asset ids per zone id via
groupby_and_aggregate (default distinct-count reducer), add the
'buildings' LONG field with overwrite, and populate it per row with
`counts.get(row[0], -1)`.  `assets` is the table of flood/building
intersections. -/
def count_of_impacts_populate (floods : FTable) (flood_idcol asset_idcol : String)
    (assets : GTable) : Except TGError FTable :=
  match groupby_and_aggregate assets flood_idcol asset_idcol defaultAgg with
  | Except.error e => Except.error e
  | Except.ok counts =>
      match add_field_with_value floods "buildings" none true (some FieldType.long) with
      | Except.error e => Except.error e
      | Except.ok floods1 =>
          populate_field floods1
            (fun row => FieldValue.int
              ((alookup (rowQ row flood_idcol) counts).getD (-1)))
            "buildings" [flood_idcol]

theorem badFieldNames_pair_nil (schema : List String) (a b : String)
    (ha : a ∈ schema ∨ a = "SHAPE@AREA") (hb : b ∈ schema ∨ b = "SHAPE@AREA") :
    badFieldNames schema [a, b] true = [] := by
  rw [badFieldNames, List.filter_eq_nil_iff]
  intro x hx
  rcases List.mem_cons.mp hx with rfl | hx2
  · rcases ha with h | h <;> simp [h]
  · rcases List.mem_cons.mp hx2 with rfl | hx3
    · rcases hb with h | h <;> simp [h]
    · exact absurd hx3 (List.not_mem_nil x)

theorem add_field_populate_spec (floods : FTable) (flood_idcol fname : String)
    (ft : FieldType) (fxn : RowF → FieldValue)
    (hf : flood_idcol ∈ floods.fields.map Prod.fst) (hne : flood_idcol ≠ fname)
    (hdep : ∀ r₁ r₂ : RowF, r₁ flood_idcol = r₂ flood_idcol → fxn r₁ = fxn r₂) :
    ∃ T, (match add_field_with_value floods fname none true (some ft) with
          | Except.error e => Except.error e
          | Except.ok floods1 => populate_field floods1 fxn fname [flood_idcol]) =
        Except.ok T ∧
      T.rows.length = floods.rows.length ∧
      ∀ (n : ℕ) (r : RowF), floods.rows[n]? = some r →
        ∃ r', T.rows[n]? = some r' ∧ r' fname = some (fxn r) := by
  have hmem1 : flood_idcol ∈ (addFieldDecl floods fname ft).fields.map Prod.fst := by
    obtain ⟨p, hp, hpe⟩ := List.mem_map.mp hf
    refine List.mem_map.mpr ⟨p, ?_, hpe⟩
    simp only [addFieldDecl, List.mem_append]
    exact Or.inl (List.mem_filter.mpr ⟨hp, by simp [hpe, hne]⟩)
  have hmem2 : fname ∈ (addFieldDecl floods fname ft).fields.map Prod.fst := by
    simp [addFieldDecl]
  have hbadp : badFieldNames ((addFieldDecl floods fname ft).fields.map Prod.fst)
      ([flood_idcol] ++ [fname]) true = [] :=
    badFieldNames_pair_nil _ _ _ (Or.inl hmem1) (Or.inl hmem2)
  have hpop : populate_field (addFieldDecl floods fname ft) fxn fname [flood_idcol] =
      Except.ok { fields := (addFieldDecl floods fname ft).fields,
                  rows := (addFieldDecl floods fname ft).rows.map (fun r => fun f =>
                    if f = fname then some (fxn r) else r f) } := by
    simp only [populate_field, check_fields, hbadp]
    rfl
  refine ⟨{ fields := (addFieldDecl floods fname ft).fields,
            rows := (addFieldDecl floods fname ft).rows.map (fun r => fun f =>
              if f = fname then some (fxn r) else r f) }, ?_, ?_, ?_⟩
  · exact hpop
  · simp [addFieldDecl]
  · intro n r hr
    have hreset : (addFieldDecl floods fname ft).rows[n]? =
        some (fun f => if f = fname then none else r f) := by
      simp only [addFieldDecl]
      rw [List.getElem?_map, hr]
      rfl
    refine ⟨(fun f => if f = fname
        then some (fxn (fun f2 => if f2 = fname then none else r f2))
        else (fun f2 => if f2 = fname then none else r f2) f), ?_, ?_⟩
    · show ((addFieldDecl floods fname ft).rows.map _)[n]? = _
      rw [List.getElem?_map, hreset]
      rfl
    · have hkey : (fun f2 => if f2 = fname then none else r f2) flood_idcol =
          r flood_idcol := by
        simp [hne]
      show (if fname = fname
          then some (fxn (fun f2 => if f2 = fname then none else r f2))
          else (fun f2 => if f2 = fname then none else r f2) fname) = some (fxn r)
      rw [if_pos rfl, hdep _ _ hkey]

/-- C3: after area_of_impacts populates the floods table, every row whose
zone id has no intersected wetland row at all (so the id is absent from
the area-aggregation mapping) carries -999 in the 'wetlands' field, and
every row whose zone id is present carries the summed intersected area;
after count_of_impacts, every row whose zone id is absent from the
count-aggregation mapping carries -1 in 'buildings', and every row whose
zone id is present carries the number of distinct asset ids intersecting
that zone.  The hypotheses say the zone-id column exists on the floods
table and on the intersected-asset tables and is not itself one of the
result columns. -/
theorem impacts_sentinels_C3 (floods : FTable) (flood_idcol asset_idcol : String)
    (wetland_assets building_assets : GTable)
    (hf : flood_idcol ∈ floods.fields.map Prod.fst)
    (hw : flood_idcol ≠ "wetlands") (hb : flood_idcol ≠ "buildings")
    (hwa : flood_idcol ∈ wetland_assets.schema)
    (hba : flood_idcol ∈ building_assets.schema)
    (hbi : asset_idcol ∈ building_assets.schema) :
    (∃ T, area_of_impacts_populate floods flood_idcol wetland_assets = Except.ok T ∧
      T.rows.length = floods.rows.length ∧
      ∀ (n : ℕ) (r : RowF), floods.rows[n]? = some r →
        ∃ r', T.rows[n]? = some r' ∧
          r' "wetlands" = some (FieldValue.float
            (if (tableToPairs wetland_assets flood_idcol "SHAPE@AREA").filter
                (fun p => decide (p.1 = rowQ r flood_idcol)) = []
             then -999
             else (((tableToPairs wetland_assets flood_idcol "SHAPE@AREA").filter
                (fun p => decide (p.1 = rowQ r flood_idcol))).map Prod.snd).sum))) ∧
    (∃ T, count_of_impacts_populate floods flood_idcol asset_idcol building_assets =
        Except.ok T ∧
      T.rows.length = floods.rows.length ∧
      ∀ (n : ℕ) (r : RowF), floods.rows[n]? = some r →
        ∃ r', T.rows[n]? = some r' ∧
          r' "buildings" = some (FieldValue.int
            (if (tableToPairs building_assets flood_idcol asset_idcol).filter
                (fun p => decide (p.1 = rowQ r flood_idcol)) = []
             then -1
             else ((((tableToPairs building_assets flood_idcol asset_idcol).filter
                (fun p => decide (p.1 = rowQ r flood_idcol))).map
                  Prod.snd).dedup.length : ℤ)))) := by
  have hdepw : ∀ r₁ r₂ : RowF, r₁ flood_idcol = r₂ flood_idcol →
      (fun row => FieldValue.float
        ((alookup (rowQ row flood_idcol)
          ((groupRuns (sortRows (tableToPairs wetland_assets flood_idcol "SHAPE@AREA"))).map
            (fun p => (p.1, sumAgg p.2)))).getD (-999))) r₁ =
      (fun row => FieldValue.float
        ((alookup (rowQ row flood_idcol)
          ((groupRuns (sortRows (tableToPairs wetland_assets flood_idcol "SHAPE@AREA"))).map
            (fun p => (p.1, sumAgg p.2)))).getD (-999))) r₂ := by
    intro r₁ r₂ h
    simp only [rowQ, h]
  have hdepb : ∀ r₁ r₂ : RowF, r₁ flood_idcol = r₂ flood_idcol →
      (fun row => FieldValue.int
        ((alookup (rowQ row flood_idcol)
          ((groupRuns (sortRows (tableToPairs building_assets flood_idcol asset_idcol))).map
            (fun p => (p.1, defaultAgg p.2)))).getD (-1))) r₁ =
      (fun row => FieldValue.int
        ((alookup (rowQ row flood_idcol)
          ((groupRuns (sortRows (tableToPairs building_assets flood_idcol asset_idcol))).map
            (fun p => (p.1, defaultAgg p.2)))).getD (-1))) r₂ := by
    intro r₁ r₂ h
    simp only [rowQ, h]
  constructor
  · have hgw := groupby_ok wetland_assets flood_idcol "SHAPE@AREA" sumAgg
      (badFieldNames_pair_nil _ _ _ (Or.inl hwa) (Or.inr rfl))
    obtain ⟨T, hT, hlen, hrows⟩ := add_field_populate_spec floods flood_idcol "wetlands"
      FieldType.double
      (fun row => FieldValue.float
        ((alookup (rowQ row flood_idcol)
          ((groupRuns (sortRows (tableToPairs wetland_assets flood_idcol "SHAPE@AREA"))).map
            (fun p => (p.1, sumAgg p.2)))).getD (-999)))
      hf hw hdepw
    refine ⟨T, ?_, hlen, ?_⟩
    · rw [area_of_impacts_populate, hgw]
      exact hT
    · intro n r hr
      obtain ⟨r', hr', hval⟩ := hrows n r hr
      refine ⟨r', hr', ?_⟩
      rw [hval,
        alookup_groupby_result wetland_assets flood_idcol "SHAPE@AREA" sumAgg
          (rowQ r flood_idcol)]
      by_cases hA : (tableToPairs wetland_assets flood_idcol "SHAPE@AREA").filter
          (fun p => decide (p.1 = rowQ r flood_idcol)) = []
      · simp [hA]
      · simp [hA, sumAgg_filter]
  · have hgb := groupby_ok building_assets flood_idcol asset_idcol defaultAgg
      (badFieldNames_pair_nil _ _ _ (Or.inl hba) (Or.inl hbi))
    obtain ⟨T, hT, hlen, hrows⟩ := add_field_populate_spec floods flood_idcol "buildings"
      FieldType.long
      (fun row => FieldValue.int
        ((alookup (rowQ row flood_idcol)
          ((groupRuns (sortRows (tableToPairs building_assets flood_idcol asset_idcol))).map
            (fun p => (p.1, defaultAgg p.2)))).getD (-1)))
      hf hb hdepb
    refine ⟨T, ?_, hlen, ?_⟩
    · rw [count_of_impacts_populate, hgb]
      exact hT
    · intro n r hr
      obtain ⟨r', hr', hval⟩ := hrows n r hr
      refine ⟨r', hr', ?_⟩
      rw [hval,
        alookup_groupby_result building_assets flood_idcol asset_idcol defaultAgg
          (rowQ r flood_idcol)]
      by_cases hA : (tableToPairs building_assets flood_idcol asset_idcol).filter
          (fun p => decide (p.1 = rowQ r flood_idcol)) = []
      · simp [hA]
      · simp [hA, defaultAgg_filter]

/-- A concrete one-row floods table for exercising the impact population. -/
def cFloods : FTable :=
  ⟨[("gid", FieldType.long)], [fun f => if f = "gid" then some (FieldValue.int 1) else none]⟩

/-- A concrete dissolved flood/wetland intersection table: zone 1, area 5. -/
def cWetAssets : GTable := ⟨["gid"], [fun f => if f = "gid" then 1 else 5]⟩

/-- A concrete flood/building intersection table: zone 1, building id 7. -/
def cBldgAssets : GTable := ⟨["gid", "STRUCT_ID"], [fun f => if f = "gid" then 1 else 7]⟩

/-- Witness for C3: the sentinel-vs-aggregate population applied to the
concrete one-row tables. -/
theorem impacts_sentinels_C3_witness :
    (∃ T, area_of_impacts_populate cFloods "gid" cWetAssets = Except.ok T ∧
      T.rows.length = cFloods.rows.length ∧
      ∀ (n : ℕ) (r : RowF), cFloods.rows[n]? = some r →
        ∃ r', T.rows[n]? = some r' ∧
          r' "wetlands" = some (FieldValue.float
            (if (tableToPairs cWetAssets "gid" "SHAPE@AREA").filter
                (fun p => decide (p.1 = rowQ r "gid")) = []
             then -999
             else (((tableToPairs cWetAssets "gid" "SHAPE@AREA").filter
                (fun p => decide (p.1 = rowQ r "gid"))).map Prod.snd).sum))) ∧
    (∃ T, count_of_impacts_populate cFloods "gid" "STRUCT_ID" cBldgAssets =
        Except.ok T ∧
      T.rows.length = cFloods.rows.length ∧
      ∀ (n : ℕ) (r : RowF), cFloods.rows[n]? = some r →
        ∃ r', T.rows[n]? = some r' ∧
          r' "buildings" = some (FieldValue.int
            (if (tableToPairs cBldgAssets "gid" "STRUCT_ID").filter
                (fun p => decide (p.1 = rowQ r "gid")) = []
             then -1
             else ((((tableToPairs cBldgAssets "gid" "STRUCT_ID").filter
                (fun p => decide (p.1 = rowQ r "gid"))).map
                  Prod.snd).dedup.length : ℤ)))) :=
  impacts_sentinels_C3 cFloods "gid" "STRUCT_ID" cWetAssets cBldgAssets
    (by decide) (by decide) (by decide) (by decide) (by decide) (by decide)

end Tidegates
